import Mathlib

/-!
# Verification of the `remix-isomorphic-link` href classifier and normalizer

Shallow embedding of `src/index.tsx` (the `remix-isomorphic-link` variant):
the pure functions `isUrl`, `isInHostDomain`, `urlToHref`, `parseHref`,
`addFinalSlash` and `sanitizeTo`.

The source calls the platform's `URL` constructor (WHATWG URL Standard).
That external parser is modelled here by `parseURLCore` / `parseURL`,
simplified in ways that are irrelevant to the properties proved below:
no percent-encoding, no dot-segment (`.` / `..`) normalization, no host
case-normalization or validity checking beyond non-emptiness for special
schemes, no userinfo/port splitting (`host` keeps the whole authority,
as `url.host` keeps the port), and no stripping of tabs/newlines.
Scheme recognition, the special/non-special scheme split, opaque paths
(`mailto:`, `tel:`), authority extraction, backslash-as-slash in special
URLs, empty-path handling (`/` for special URLs, `""` otherwise) and the
`search` / `hash` getters (empty component renders as `""`) follow the
standard.

JavaScript idioms are embedded as follows: an optional `string` parameter
becomes `Option String`; an optional boolean checked only for truthiness
becomes `Bool` (JS `undefined` and `false` are interchangeable in every
use here); `url.host === host` with `host : string | undefined` becomes
`jsStrictEqOpt`; a thrown error becomes `Except.error`; `Partial<Path>`
fields become `Option String` (a JS truthiness test on such a field is
true exactly for `some s` with `s ≠ ""`).
-/

namespace IsoLink

/-- The WHATWG special schemes. -/
def specialSchemes : List String := ["ftp", "file", "http", "https", "ws", "wss"]

/-- Characters allowed in a URL scheme (first char must additionally be alphabetic). -/
def isSchemeChar (c : Char) : Bool := c.isAlpha || c.isDigit || c == '+' || c == '-' || c == '.'

/-- Slash characters: in special URLs, `\` is treated like `/`. -/
def isSlash (c : Char) : Bool := c == '/' || c == '\\'

/-- Components of a parsed URL, mirroring the JS `URL` object's getters used by the source. -/
structure URLRec where
  protocol : String
  host : String
  pathname : String
  search : String
  hash : String
deriving DecidableEq, Repr

/-- The `search`/`hash` getters: an empty query/fragment renders as `""`,
otherwise the component keeps its leading `?`/`#`. -/
def partToString (l : List Char) : String :=
  match l with
  | [] => ""
  | [_] => ""
  | _ => String.mk l

/-- Split the part after the authority (or the opaque path) into
path characters, query part (with leading `?` if present) and fragment part
(with leading `#` if present): the fragment starts at the first `#`, the
query at the first `?` before that. -/
def splitPSH (l : List Char) : List Char × List Char × List Char :=
  let beforeHash := l.takeWhile (fun c => !(c == '#'))
  let hashPart := l.dropWhile (fun c => !(c == '#'))
  let pathChars := beforeHash.takeWhile (fun c => !(c == '?'))
  let queryPart := beforeHash.dropWhile (fun c => !(c == '?'))
  (pathChars, queryPart, hashPart)

/-- Modelled from the WHATWG URL Standard (the JS `new URL(s)` constructor with
no base), on the character list of the input; `none` models the constructor
throwing. See the file header for the simplifications. -/
def parseURLCore (cs : List Char) : Option URLRec :=
  let schemeChars := cs.takeWhile isSchemeChar
  match schemeChars, cs.dropWhile isSchemeChar with
  | c0 :: _, ':' :: rest =>
      if !c0.isAlpha then none
      else
        let scheme := String.mk (schemeChars.map Char.toLower)
        if specialSchemes.contains scheme then
          let rest1 := rest.dropWhile isSlash
          let auth := rest1.takeWhile (fun c => !(isSlash c || c == '?' || c == '#'))
          let after := rest1.dropWhile (fun c => !(isSlash c || c == '?' || c == '#'))
          if auth.isEmpty && !(scheme == "file") then none
          else
            let (p, q, f) := splitPSH after
            let pathStr := String.mk (p.map (fun c => if c == '\\' then '/' else c))
            some { protocol := scheme ++ ":", host := String.mk auth,
                   pathname := if pathStr = "" then "/" else pathStr,
                   search := partToString q, hash := partToString f }
        else
          match rest with
          | '/' :: '/' :: rest2 =>
            let auth := rest2.takeWhile (fun c => !(c == '/' || c == '?' || c == '#'))
            let after := rest2.dropWhile (fun c => !(c == '/' || c == '?' || c == '#'))
            let (p, q, f) := splitPSH after
            some { protocol := scheme ++ ":", host := String.mk auth,
                   pathname := String.mk p, search := partToString q, hash := partToString f }
          | _ =>
            let (p, q, f) := splitPSH rest
            some { protocol := scheme ++ ":", host := "",
                   pathname := String.mk p, search := partToString q, hash := partToString f }
  | _, _ => none

/-- The JS `new URL(s)` constructor on a string. -/
def parseURL (s : String) : Option URLRec := parseURLCore s.data

/-- A simplified serialization standing in for `url.href`; `HREF.href` is
never consumed by `sanitizeTo`, so this field is inert in every theorem below. -/
def serializeURL (u : URLRec) : String :=
  u.protocol ++ (if u.host = "" then "" else "//" ++ u.host) ++ u.pathname ++ u.search ++ u.hash

/-- The source's `HREF` interface (including the source's `prototcol` spelling). -/
structure HREF where
  href : String
  prototcol : String
  host : String
  pathname : String
  search : String
  hash : String
  isOutgoing : Bool
  isAbsolute : Bool
deriving DecidableEq, Repr

/-- JS strict equality `a === b` for `a : string`, `b : string | undefined`. -/
def jsStrictEqOpt (a : String) (b : Option String) : Bool :=
  match b with
  | some s => a == s
  | none => false

/-- `isInHostDomain(url, host)`: `url.host === host`. -/
def isInHostDomain (url : URLRec) (host : Option String) : Bool :=
  jsStrictEqOpt url.host host

/-- `urlToHref(url, host)`. -/
def urlToHref (url : URLRec) (host : Option String) : HREF :=
  { href := serializeURL url
    prototcol := url.protocol
    host := url.host
    pathname := url.pathname
    search := url.search
    hash := url.hash
    isOutgoing := !(isInHostDomain url host)
    isAbsolute := true }

/-- `isUrl(href)`: whether `new URL(href)` succeeds. -/
def isUrl (href : String) : Bool := (parseURL href).isSome

/-- The fixed synthetic base used by `parseHref` for non-URL strings. -/
def fakeBase : String := "https://remix-isomorphic-link.com"

/-- The host-stripping step of `parseHref`'s fallback.
The JS guard `host && href.startsWith(host)` is host-defined-and-nonempty plus
string-prefix test; `href.substring(host.length)` drops the host prefix (under
the prefix test, the UTF-16-unit count and the character count remove the same
prefix). -/
def stripHost (href : String) (host : Option String) : String :=
  match host with
  | some h =>
    if !(h == "") && h.data.isPrefixOf href.data then
      String.mk (href.data.drop h.data.length)
    else href
  | none => href

/-- `parseHref(href, host, isExternal)`. `sanitizedHref.startsWith('/')` is a
first-character test. The final `match ... | none` branch is unreachable
(`fakeParse_any` below). -/
def parseHref (href : String) (host : Option String) (isExternal : Bool) : HREF :=
  match parseURL href with
  | some url => urlToHref url host
  | none =>
    if isExternal then
      { href := href, prototcol := "", host := "", pathname := "", search := "", hash := "",
        isOutgoing := true, isAbsolute := true }
    else
      let sanitizedHref := stripHost href host
      let isAbsolute := sanitizedHref.data.head? == some '/'
      let fakeUrl := fakeBase ++ (if isAbsolute then sanitizedHref else "/" ++ sanitizedHref)
      match parseURL fakeUrl with
      | some url =>
        { href := href, prototcol := "", host := "", pathname := url.pathname,
          search := url.search, hash := url.hash, isOutgoing := false, isAbsolute := isAbsolute }
      | none =>
        { href := href, prototcol := "", host := "", pathname := "", search := "", hash := "",
          isOutgoing := false, isAbsolute := isAbsolute }

/-- `addFinalSlash(pathname)`: the JS last-character test
`pathname[pathname.length - 1] === '/'` is `data.getLast? == some '/'`
(`/` is a single UTF-16 unit, so last-unit and last-character tests agree). -/
def addFinalSlash (pathname : String) : String :=
  if pathname = "" then "/"
  else if pathname.data.getLast? == some '/' then pathname
  else pathname ++ "/"

/-- React Router's `Partial<Path>`. -/
structure PathObj where
  pathname : Option String
  search : Option String
  hash : Option String
deriving DecidableEq, Repr

/-- React Router's `To`: a string or a partial path object. -/
inductive To where
  | str : String → To
  | path : PathObj → To
deriving DecidableEq, Repr

/-- `throwError(message)` prefixes the package name; the raised error is
modelled as the `Except.error` payload of `sanitizeTo`. -/
def throwErrorMsg (message : String) : String := "remix-isomorphic-link: " ++ message

/-- The configuration-misuse error raised for a structured target with an
explicit external flag. -/
def pathExternalError : String :=
  throwErrorMsg "You specified \"isExternal={true}\" but provided a to prop of type Path. Please provide your href as a string if you want it to be used as an outgoing link. Type Path can only be used for internal links."

/-- `sanitizeTo(to, useTrailingSlash = false, explicitlyOutgoing?, host?)`;
the `to` argument is named `tgt` (`to` is reserved in Lean).
`useTrailingSlash && pathname` is a truthiness test: true exactly when the
policy is on and the field is a nonempty string. -/
def sanitizeTo (tgt : To) (useTrailingSlash : Bool) (explicitlyOutgoing : Bool)
    (host : Option String) : Except String (Bool × To) :=
  if (match tgt with | .str _ => false | .path _ => true) && explicitlyOutgoing then
    .error pathExternalError
  else
    match tgt with
    | .str s =>
      let href := parseHref s host explicitlyOutgoing
      if href.isOutgoing then
        .ok (true, .str s)
      else
        let sanitizedPath := if useTrailingSlash then addFinalSlash href.pathname else href.pathname
        .ok (false, .str (sanitizedPath ++ href.search ++ href.hash))
    | .path p =>
      let sanitizedPathname :=
        match p.pathname with
        | some q => if useTrailingSlash && !(q == "") then some (addFinalSlash q) else some q
        | none => none
      .ok (false, .path { pathname := sanitizedPathname, search := p.search, hash := p.hash })

/-! ## Helper lemmas -/

lemma mk_cons_ne_empty (c : Char) (l : List Char) : ¬ (String.mk (c :: l) = "") := by
  intro h
  have h2 := congrArg String.data h
  simp at h2

lemma append_slash_data (p : String) : (p ++ "/").data = p.data ++ ['/'] := by
  rw [String.data_append]

lemma eq_empty_of_data_nil (p : String) (h : p.data = []) : p = "" := by
  cases p with
  | mk l => cases h; rfl

/-- Parsing the synthetic base URL followed by a slash-initial path part always
succeeds and yields a pathname that begins with `/`. -/
lemma parseURLCore_fakeBase (t : List Char) :
    ∃ u, parseURLCore (fakeBase.data ++ '/' :: t) = some u ∧
      u.pathname.data.head? = some '/' := by
  have hb : fakeBase.data =
      ['h','t','t','p','s',':','/','/','r','e','m','i','x','-','i','s','o','m','o','r','p','h','i','c','-','l','i','n','k','.','c','o','m'] := rfl
  rw [hb]
  simp +decide [parseURLCore, List.takeWhile_cons, List.dropWhile_cons, isSchemeChar, isSlash,
    splitPSH, mk_cons_ne_empty]

/-- Same statement at the level of strings: appending a slash-initial string to
the synthetic base parses to a URL whose pathname begins with `/`. -/
lemma parseURL_fakeBase (x : String) (hx : x.data.head? = some '/') :
    ∃ u, parseURL (fakeBase ++ x) = some u ∧ u.pathname.data.head? = some '/' := by
  cases hd : x.data with
  | nil => rw [hd] at hx; simp at hx
  | cons c t =>
    rw [hd] at hx
    simp at hx
    subst hx
    have : (fakeBase ++ x).data = fakeBase.data ++ '/' :: t := by
      rw [String.data_append, hd]
    rw [parseURL, this]
    exact parseURLCore_fakeBase t

/-- Whether or not the stripped string is slash-initial, the synthetic URL built
from it parses, with a slash-initial pathname. -/
lemma fakeParse_any (sh : String) :
    ∃ u, parseURL (fakeBase ++ (if sh.data.head? == some '/' then sh else "/" ++ sh)) = some u ∧
      u.pathname.data.head? = some '/' := by
  by_cases hA : sh.data.head? = some '/'
  · rw [if_pos (by simp [hA])]
    exact parseURL_fakeBase sh hA
  · rw [if_neg (by simp [hA])]
    refine parseURL_fakeBase ("/" ++ sh) ?_
    rw [String.data_append]
    rfl

/-- The fallback branch of `parseHref` (non-URL input, no external flag) is
always internal, with a slash-initial pathname. -/
lemma parseHref_fallback (s : String) (host : Option String) (h : parseURL s = none) :
    (parseHref s host false).isOutgoing = false ∧
    (parseHref s host false).pathname.data.head? = some '/' := by
  obtain ⟨u, hu, hhead⟩ := fakeParse_any (stripHost s host)
  simp at hu
  simp [parseHref, h, hu, hhead]

lemma parseURL_eq_none (s : String) (h : isUrl s = false) : parseURL s = none := by
  rw [isUrl] at h
  exact Option.not_isSome_iff_eq_none.mp (by simp [h])

lemma addFinalSlash_head (q : String) (c : Char) (t : List Char) (hq : q.data = c :: t) :
    (addFinalSlash q).data.head? = some c := by
  have hqne : q ≠ "" := by
    intro he
    rw [he] at hq
    simp at hq
  rw [addFinalSlash, if_neg hqne]
  by_cases hl : q.data.getLast? = some '/'
  · rw [if_pos (by simp [hl])]
    rw [hq]
    rfl
  · rw [if_neg (by simp [hl])]
    rw [append_slash_data, hq]
    rfl

/-! ## Claim theorems -/

/-- C3: a structured-path target paired with the explicit external flag makes
`sanitizeTo` raise the configuration-misuse error, for every trailing-slash
policy and host configuration. -/
theorem C3_path_with_external_flag_errors :
    ∀ (p : PathObj) (uts : Bool) (host : Option String),
      sanitizeTo (To.path p) uts true host = .error pathExternalError :=
  fun _ _ _ => rfl

/-- C4: `addFinalSlash` maps the empty pathname to `/`, leaves a pathname
already ending in `/` unchanged, appends `/` otherwise, and is idempotent. -/
theorem C4_addFinalSlash_spec :
    ∀ p : String,
      (addFinalSlash "" = "/") ∧
      (p.data.getLast? = some '/' → addFinalSlash p = p) ∧
      (p ≠ "" → p.data.getLast? ≠ some '/' → addFinalSlash p = p ++ "/") ∧
      (addFinalSlash (addFinalSlash p) = addFinalSlash p) := by
  intro p
  refine ⟨rfl, ?_, ?_, ?_⟩
  · intro hl
    have hne : p ≠ "" := by
      intro he
      subst he
      simp at hl
    simp [addFinalSlash, hne, hl]
  · intro hne hl
    simp [addFinalSlash, hne, hl]
  · by_cases hp : p = ""
    · subst hp
      decide
    · by_cases hl : p.data.getLast? = some '/'
      · have h2 : addFinalSlash p = p := by simp [addFinalSlash, hp, hl]
        rw [h2, h2]
      · have h3 : addFinalSlash p = p ++ "/" := by simp [addFinalSlash, hp, hl]
        rw [h3]
        have hl2 : (p ++ "/").data.getLast? = some '/' := by
          rw [append_slash_data]
          simp
        have hne2 : p ++ "/" ≠ "" := by
          intro he
          have h4 := congrArg String.data he
          rw [append_slash_data] at h4
          simp at h4
        simp [addFinalSlash, hne2, hl2]

/-- Witness for C4 at concrete pathnames. -/
theorem C4_addFinalSlash_spec_witness :
    addFinalSlash "/contact/" = "/contact/" ∧ addFinalSlash "/contact" = "/contact" ++ "/" :=
  ⟨(C4_addFinalSlash_spec "/contact/").2.1 (by decide),
   (C4_addFinalSlash_spec "/contact").2.2.1 (by decide) (by decide)⟩

/-- C5: a string parsing as an absolute URL whose host does not equal the
configured host (including an unconfigured host) is classified outgoing and
returned unchanged, for every trailing-slash policy and explicit flag. -/
theorem C5_external_url_unchanged :
    ∀ (s : String) (u : URLRec) (uts ext : Bool) (host : Option String),
      parseURL s = some u → isInHostDomain u host = false →
      sanitizeTo (To.str s) uts ext host = .ok (true, To.str s) := by
  intro s u uts ext host hu hmatch
  simp [sanitizeTo, parseHref, hu, urlToHref, hmatch]

/-- Witness for C5: `https://youtube.com` against host `example.com`. -/
theorem C5_external_url_unchanged_witness :
    sanitizeTo (To.str "https://youtube.com") true false (some "example.com") =
      .ok (true, To.str "https://youtube.com") :=
  C5_external_url_unchanged "https://youtube.com"
    { protocol := "https:", host := "youtube.com", pathname := "/", search := "", hash := "" }
    true false (some "example.com") rfl rfl

/-- C6: a string parsing as an absolute URL whose host equals the configured
host (no explicit flag) is classified internal and the router target is built
from the parsed URL's pathname, search and hash, not from the original string. -/
theorem C6_internal_url_host_stripped :
    ∀ (s : String) (u : URLRec) (uts : Bool) (h : String),
      parseURL s = some u → u.host = h →
      sanitizeTo (To.str s) uts false (some h) =
        .ok (false, To.str
          ((if uts then addFinalSlash u.pathname else u.pathname) ++ u.search ++ u.hash)) := by
  intro s u uts h hu hh
  simp [sanitizeTo, parseHref, hu, urlToHref, isInHostDomain, jsStrictEqOpt, hh]

/-- Witness for C6: `https://example.com/contact?a=1#b` with host `example.com`. -/
theorem C6_internal_url_host_stripped_witness :
    sanitizeTo (To.str "https://example.com/contact?a=1#b") false false (some "example.com") =
      .ok (false, To.str
        ((if false then addFinalSlash "/contact" else "/contact") ++ "?a=1" ++ "#b")) :=
  C6_internal_url_host_stripped "https://example.com/contact?a=1#b"
    { protocol := "https:", host := "example.com", pathname := "/contact",
      search := "?a=1", hash := "#b" }
    false "example.com" rfl rfl

/-- C7: a string that does not parse as an absolute URL, with the explicit
external flag set, is classified outgoing and passed through verbatim. -/
theorem C7_nonurl_external_verbatim :
    ∀ (s : String) (uts : Bool) (host : Option String),
      isUrl s = false →
      sanitizeTo (To.str s) uts true host = .ok (true, To.str s) := by
  intro s uts host h
  simp [sanitizeTo, parseHref, parseURL_eq_none s h]

/-- Witness for C7: `youtube.com` with the external flag. -/
theorem C7_nonurl_external_verbatim_witness :
    sanitizeTo (To.str "youtube.com") false true (some "example.com") =
      .ok (true, To.str "youtube.com") :=
  C7_nonurl_external_verbatim "youtube.com" false (some "example.com") rfl

/-- C1 counterexample: for the target `https://example.com/contact` with host
`example.com` and the explicit external flag set, `sanitizeTo` classifies the
target as internal with router target `/contact` — not outgoing with the
address unchanged, as the claim states. -/
theorem C1_counterexample :
    sanitizeTo (To.str "https://example.com/contact") false true (some "example.com") =
      .ok (false, To.str "/contact") ∧
    sanitizeTo (To.str "https://example.com/contact") false true (some "example.com") ≠
      .ok (true, To.str "https://example.com/contact") := by
  have h0 : sanitizeTo (To.str "https://example.com/contact") false true (some "example.com") =
      .ok (false, To.str "/contact") := rfl
  refine ⟨h0, ?_⟩
  rw [h0]
  simp

/-- C1 amended: for every string that parses as a valid absolute URL, the
explicit external flag is ignored — `sanitizeTo` returns the same result as
with the flag unset, so classification stays host-based; in particular the
claim's scenario yields internal with router target `/contact`. -/
theorem C1_amended_flag_ignored_for_urls :
    (∀ (s : String) (uts ext : Bool) (host : Option String), isUrl s = true →
      sanitizeTo (To.str s) uts ext host = sanitizeTo (To.str s) uts false host) ∧
    sanitizeTo (To.str "https://example.com/contact") false true (some "example.com") =
      .ok (false, To.str "/contact") := by
  refine ⟨?_, rfl⟩
  intro s uts ext host h
  rw [isUrl, Option.isSome_iff_exists] at h
  obtain ⟨u, hu⟩ := h
  simp [sanitizeTo, parseHref, hu]

/-- Witness for C1 amended: the flag makes no difference on `https://youtube.com`. -/
theorem C1_amended_flag_ignored_for_urls_witness :
    sanitizeTo (To.str "https://youtube.com") true true (some "example.com") =
      sanitizeTo (To.str "https://youtube.com") true false (some "example.com") :=
  C1_amended_flag_ignored_for_urls.1 "https://youtube.com" true true (some "example.com") rfl

/-- C2: a string that does not parse as a valid absolute URL, with no explicit
external flag, is classified internal for every host configuration — even when
it resembles a domain name. -/
theorem C2_nonurl_internal :
    ∀ (s : String) (uts : Bool) (host : Option String),
      isUrl s = false →
      (parseHref s host false).isOutgoing = false ∧
      ∃ r : String, sanitizeTo (To.str s) uts false host = .ok (false, To.str r) := by
  intro s uts host h
  have h1 := (parseHref_fallback s host (parseURL_eq_none s h)).1
  refine ⟨h1, ?_⟩
  refine ⟨(if uts then addFinalSlash (parseHref s host false).pathname
    else (parseHref s host false).pathname) ++ (parseHref s host false).search ++
    (parseHref s host false).hash, ?_⟩
  simp [sanitizeTo, h1]

/-- Witness for C2: `youtube.com` is classified internal. -/
theorem C2_nonurl_internal_witness :
    (parseHref "youtube.com" (some "example.com") false).isOutgoing = false ∧
    ∃ r : String, sanitizeTo (To.str "youtube.com") false false (some "example.com") =
      .ok (false, To.str r) :=
  C2_nonurl_internal "youtube.com" false (some "example.com") rfl

/-- C8 counterexample: a structured target with an empty `pathname` and the
trailing-slash policy enabled keeps the empty pathname — it does not become
`/` as the claim states (the truthiness guard skips empty strings). -/
theorem C8_counterexample :
    sanitizeTo (To.path ⟨some "", some "?q", some "#h"⟩) true false none =
      .ok (false, To.path ⟨some "", some "?q", some "#h"⟩) ∧
    sanitizeTo (To.path ⟨some "", some "?q", some "#h"⟩) true false none ≠
      .ok (false, To.path ⟨some "/", some "?q", some "#h"⟩) := by
  have h0 : sanitizeTo (To.path ⟨some "", some "?q", some "#h"⟩) true false none =
      .ok (false, To.path ⟨some "", some "?q", some "#h"⟩) := rfl
  refine ⟨h0, ?_⟩
  rw [h0]
  simp

/-- C8 amended: a structured target without the explicit flag is never
outgoing and never flattened; `search` and `hash` are passed through exactly;
`pathname` gets the trailing-slash rule only when the policy is on and the
field is a nonempty string (an empty or absent pathname is left unchanged, so
an empty pathname does not become `/`); with the policy off the whole
structured target is returned unchanged. -/
theorem C8_amended_path_frame :
    (∀ (p : PathObj) (uts : Bool) (host : Option String),
      sanitizeTo (To.path p) uts false host =
        .ok (false, To.path
          { pathname := p.pathname.map (fun q => if uts && !(q == "") then addFinalSlash q else q)
            search := p.search
            hash := p.hash })) ∧
    (∀ (p : PathObj) (host : Option String),
      sanitizeTo (To.path p) false false host = .ok (false, To.path p)) := by
  constructor
  · intro p uts host
    obtain ⟨pn, ps, ph⟩ := p
    cases pn <;> simp [sanitizeTo]
    split <;> rfl
  · intro p host
    obtain ⟨pn, ps, ph⟩ := p
    cases pn <;> simp [sanitizeTo]

/-- C9 counterexample: `foo://example.com` with configured host `example.com`
is classified internal, and the returned router-target string is empty — it
does not begin with `/`. -/
theorem C9_counterexample :
    sanitizeTo (To.str "foo://example.com") false false (some "example.com") =
      .ok (false, To.str "") ∧
    ("" : String).data.head? ≠ some '/' := by
  exact ⟨rfl, by simp⟩

/-- C9 amended: for every string target that does not parse as a valid
absolute URL (so the synthetic-base resolution runs), the internal router
target returned by `sanitizeTo` begins with `/`. -/
theorem C9_amended_internal_starts_with_slash :
    ∀ (s : String) (uts : Bool) (host : Option String),
      isUrl s = false →
      ∃ r : String, sanitizeTo (To.str s) uts false host = .ok (false, To.str r) ∧
        r.data.head? = some '/' := by
  intro s uts host h
  obtain ⟨h1, h2⟩ := parseHref_fallback s host (parseURL_eq_none s h)
  refine ⟨(if uts then addFinalSlash (parseHref s host false).pathname
    else (parseHref s host false).pathname) ++ (parseHref s host false).search ++
    (parseHref s host false).hash, by simp [sanitizeTo, h1], ?_⟩
  cases hd : (parseHref s host false).pathname.data with
  | nil => rw [hd] at h2; simp at h2
  | cons c t =>
    rw [hd] at h2
    simp at h2
    subst h2
    have hstart : ∀ q : String, q.data = '/' :: t →
        ((if uts then addFinalSlash q else q) ++ (parseHref s host false).search ++
          (parseHref s host false).hash).data.head? = some '/' := by
      intro q hq
      have hmain : (if uts then addFinalSlash q else q).data.head? = some '/' := by
        cases uts with
        | false => simp [hq]
        | true => simpa using addFinalSlash_head q '/' t hq
      rw [String.data_append, String.data_append]
      cases he : (if uts then addFinalSlash q else q).data with
      | nil => rw [he] at hmain; simp at hmain
      | cons c' t' =>
        rw [he] at hmain
        simp at hmain
        subst hmain
        rfl
    exact hstart (parseHref s host false).pathname hd

/-- Witness for C9 amended: the relative target `contact` is absolutized. -/
theorem C9_amended_internal_starts_with_slash_witness :
    ∃ r : String, sanitizeTo (To.str "contact") false false none = .ok (false, To.str r) ∧
      r.data.head? = some '/' :=
  C9_amended_internal_starts_with_slash "contact" false none rfl

/-- C10: host comparison is strict string equality (an unconfigured host never
matches); `mailto:`/`tel:` targets parse with an empty-string host, so they
are outgoing for every configured host except `""` and internal exactly when
the configured host is `""`. -/
theorem C10_mailto_tel_empty_host :
    ((parseURL "mailto:a@b.com").map URLRec.host = some "") ∧
    ((parseURL "tel:+188899956754").map URLRec.host = some "") ∧
    (∀ (u : URLRec) (h : String), isInHostDomain u (some h) = (u.host == h)) ∧
    (∀ u : URLRec, isInHostDomain u none = false) ∧
    (∀ h : String, h ≠ "" →
      (parseHref "mailto:a@b.com" (some h) false).isOutgoing = true ∧
      (parseHref "tel:+188899956754" (some h) false).isOutgoing = true) ∧
    ((parseHref "mailto:a@b.com" none false).isOutgoing = true) ∧
    ((parseHref "mailto:a@b.com" (some "") false).isOutgoing = false) ∧
    ((parseHref "tel:+188899956754" (some "") false).isOutgoing = false) := by
  refine ⟨rfl, rfl, fun u h => rfl, fun u => rfl, ?_, rfl, rfl, rfl⟩
  intro h hh
  have hm : parseURL "mailto:a@b.com" =
      some { protocol := "mailto:", host := "", pathname := "a@b.com",
             search := "", hash := "" } := rfl
  have ht : parseURL "tel:+188899956754" =
      some { protocol := "tel:", host := "", pathname := "+188899956754",
             search := "", hash := "" } := rfl
  constructor
  · simp [parseHref, hm, urlToHref, isInHostDomain, jsStrictEqOpt]
    exact fun he => hh he.symm
  · simp [parseHref, ht, urlToHref, isInHostDomain, jsStrictEqOpt]
    exact fun he => hh he.symm

/-- Witness for C10 at the configured host `example.com`. -/
theorem C10_mailto_tel_empty_host_witness :
    (parseHref "mailto:a@b.com" (some "example.com") false).isOutgoing = true ∧
    (parseHref "tel:+188899956754" (some "example.com") false).isOutgoing = true :=
  C10_mailto_tel_empty_host.2.2.2.2.1 "example.com" (by simp)

end IsoLink
